import Mathlib

/-!
Verification development for the ever-wallet-api transaction gateway.

The orchestration service (`src/services/ton.rs`), the core context
(`src/ton_core/mod.rs`) and the persisted row types (`src/models/sqlx.rs`)
are embedded shallowly.  External collaborators (`SqlxClient`,
`TonApiClient`, `CallbackClient`, the ledger engine) are modelled as
oracles: each call's outcome is a field of an environment record, and the
embedded functions return, besides the Rust function's result, the list of
observable collaborator calls they perform, in order.
-/

namespace EverWallet

/-! ## Carrier types for external scalar types -/

abbrev Uuid := Nat
abbrev ServiceId := Nat
abbrev BigDecimal := Int
abbrev NaiveDateTime := Int
abbrev JsonValue := String
abbrev AccountType := Nat

/-- Webhook-delivery status of a persisted event.  The variants `New`,
`Notified` and `Error` are the ones used by `src/services/ton.rs`. -/
inductive TonEventStatus
  | New
  | Notified
  | Error
deriving DecidableEq, Repr

/-- Modelled from the spec: the direction axis of a record
(`Incoming`/`Outgoing`); the enum itself lives outside `src/`. -/
inductive TonTransactionDirection
  | Incoming
  | Outgoing
deriving DecidableEq, Repr

/-- Modelled from the spec: the ledger-confirmation status of a
transaction record (`New` then terminal `Confirmed`/`Error`/`Aborted`);
the enum itself lives outside `src/`. -/
inductive TonTransactionStatus
  | New
  | Confirmed
  | Error
  | Aborted
deriving DecidableEq, Repr

/-- Modelled from the spec: the confirmation status of a token
transaction record, structurally parallel to `TonTransactionStatus`. -/
inductive TonTokenTransactionStatus
  | New
  | Confirmed
  | Error
  | Aborted
deriving DecidableEq, Repr

/-- `AddressDb` from `src/models/sqlx.rs`. -/
structure AddressDb where
  id : Uuid
  service_id : ServiceId
  workchain_id : Int
  hex : String
  base64url : String
  public_key : String
  private_key : String
  account_type : AccountType
  custodians : Option Int
  confirmations : Option Int
  custodians_public_keys : Option JsonValue
  balance : BigDecimal
  created_at : NaiveDateTime
  updated_at : NaiveDateTime
deriving DecidableEq, Repr

/-- `TransactionDb` from `src/models/sqlx.rs`. -/
structure TransactionDb where
  id : Uuid
  service_id : ServiceId
  message_hash : String
  transaction_hash : Option String
  transaction_lt : Option BigDecimal
  transaction_timeout : Option Int
  transaction_scan_lt : Option Int
  transaction_timestamp : Option NaiveDateTime
  sender_workchain_id : Option Int
  sender_hex : Option String
  account_workchain_id : Int
  account_hex : String
  messages : Option JsonValue
  messages_hash : Option JsonValue
  data : Option JsonValue
  original_value : Option BigDecimal
  original_outputs : Option JsonValue
  value : Option BigDecimal
  fee : Option BigDecimal
  balance_change : Option BigDecimal
  direction : TonTransactionDirection
  status : TonTransactionStatus
  error : Option String
  aborted : Bool
  bounce : Bool
  multisig_transaction_id : Option Int
  created_at : NaiveDateTime
  updated_at : NaiveDateTime
deriving DecidableEq, Repr

/-- `TransactionEventDb` from `src/models/sqlx.rs`. -/
structure TransactionEventDb where
  id : Uuid
  service_id : ServiceId
  transaction_id : Uuid
  message_hash : String
  account_workchain_id : Int
  account_hex : String
  sender_workchain_id : Option Int
  sender_hex : Option String
  balance_change : Option BigDecimal
  transaction_direction : TonTransactionDirection
  transaction_status : TonTransactionStatus
  event_status : TonEventStatus
  created_at : NaiveDateTime
  updated_at : NaiveDateTime
  multisig_transaction_id : Option Int
deriving DecidableEq, Repr

/-- `TokenBalanceFromDb` from `src/models/sqlx.rs`. -/
structure TokenBalanceFromDb where
  service_id : ServiceId
  account_workchain_id : Int
  account_hex : String
  balance : BigDecimal
  root_address : String
  created_at : NaiveDateTime
  updated_at : NaiveDateTime
deriving DecidableEq, Repr

/-- `TokenTransactionFromDb` from `src/models/sqlx.rs`. -/
structure TokenTransactionFromDb where
  id : Uuid
  service_id : ServiceId
  transaction_hash : Option String
  transaction_timestamp : Option NaiveDateTime
  message_hash : String
  owner_message_hash : Option String
  account_workchain_id : Int
  account_hex : String
  value : BigDecimal
  root_address : String
  payload : Option (List Nat)
  error : Option String
  block_hash : Option String
  block_time : Option Int
  direction : TonTransactionDirection
  status : TonTokenTransactionStatus
  in_message_hash : Option String
  created_at : NaiveDateTime
  updated_at : NaiveDateTime
deriving DecidableEq, Repr

/-- `TokenTransactionEventDb` from `src/models/sqlx.rs`. -/
structure TokenTransactionEventDb where
  id : Uuid
  service_id : ServiceId
  token_transaction_id : Uuid
  message_hash : String
  account_workchain_id : Int
  account_hex : String
  owner_message_hash : Option String
  value : BigDecimal
  root_address : String
  transaction_direction : TonTransactionDirection
  transaction_status : TonTokenTransactionStatus
  event_status : TonEventStatus
  created_at : NaiveDateTime
  updated_at : NaiveDateTime
deriving DecidableEq, Repr

/-! ## Update payloads

`UpdateSendTransaction::error` / `UpdateSendTokenTransaction::error` are
constructors from `src/models/transactions.rs` / `token_transactions.rs`,
which are not under `src/`. -/

/-- Modelled from the spec: the update payload built by
`UpdateSendTransaction::error(e)`; per spec §4.4 step 2 it records the
send failure on the record's `status`. -/
structure UpdateSendTransaction where
  newStatus : TonTransactionStatus
  errorMsg : Option String
deriving DecidableEq, Repr

def UpdateSendTransaction.error (e : String) : UpdateSendTransaction :=
  ⟨TonTransactionStatus.Error, some e⟩

/-- Modelled from the spec: the update payload built by
`UpdateSendTokenTransaction::error(e)`. -/
structure UpdateSendTokenTransaction where
  newStatus : TonTokenTransactionStatus
  errorMsg : Option String
deriving DecidableEq, Repr

def UpdateSendTokenTransaction.error (e : String) : UpdateSendTokenTransaction :=
  ⟨TonTokenTransactionStatus.Error, some e⟩

/-- `true` exactly on `Except.ok`. -/
def exceptOk {ε α : Type} : Except ε α → Bool
  | .ok _ => true
  | .error _ => false

theorem exceptOk_eq_true {ε α : Type} {x : Except ε α}
    (h : exceptOk x = true) : ∃ v, x = .ok v := by
  cases x <;> simp_all [exceptOk]

/-- The event status derived from a callback attempt's outcome
(`src/services/ton.rs:184-190` and the identical matches at 223-229,
373-379, 416-422): `Error` on failure, `Notified` on success. -/
def eventStatusOfCallback : Except String Unit → TonEventStatus
  | .error _ => TonEventStatus.Error
  | .ok _ => TonEventStatus.Notified

/-! ## Observable collaborator calls of the orchestration service -/

/-- One observable collaborator call performed by `TonServiceImpl`.
Read-only lookups (`prepare_transaction`, `create_*`, `get_callback`) are
not traced; ledger submissions, storage writes, callback attempts and
logged errors are. -/
inductive SvcCall
  | sendTransaction
  | sendTokenTransaction
  | updateSendTransaction (message_hash : String) (account_workchain_id : Int)
      (account_hex : String) (upd : UpdateSendTransaction)
  | updateSendTokenTransaction (message_hash : String) (account_workchain_id : Int)
      (account_hex : String) (root_address : String) (upd : UpdateSendTokenTransaction)
  | callbackSend (url : String) (ev : TransactionEventDb)
  | tokenCallbackSend (url : String) (ev : TokenTransactionEventDb)
  | updateEventStatusOfTransactionEvent (message_hash : String)
      (account_workchain_id : Int) (account_hex : String) (st : TonEventStatus)
  | updateEventStatusOfTokenTransactionEvent (message_hash : String)
      (account_workchain_id : Int) (account_hex : String) (st : TonEventStatus)
  | logError (msg : String)
deriving DecidableEq, Repr

/-! ## Orchestration service flows (`src/services/ton.rs`) -/

/-- Oracle outcomes for the collaborator calls made by
`create_send_transaction` (`src/services/ton.rs:160-206`). -/
structure SendEnv where
  prepareResult : Except String Unit
  createResult : Except String (TransactionDb × TransactionEventDb)
  sendResult : Except String Unit
  updateSendResult : Except String (TransactionDb × TransactionEventDb)
  getCallbackResult : Except String String
  callbackResult : Except String Unit
  updateEventResult : Except String Unit

/-- The webhook block shared verbatim by `create_send_transaction`
(`ton.rs:183-203`) and `create_receive_transaction` (`ton.rs:222-242`):
if the callback lookup succeeded, attempt delivery, derive the event
status (`Error` on failure, `Notified` on success), write it through
`update_event_status_of_transaction_event` keyed by the event's message
hash / workchain / hex, logging but not propagating callback and update
failures. -/
def notifyBlock (cbUrl : Except String String) (cbRes : Except String Unit)
    (updRes : Except String Unit) (ev : TransactionEventDb) : List SvcCall :=
  match cbUrl with
  | .error _ => []
  | .ok url =>
      let st := eventStatusOfCallback cbRes
      let cbLog := match cbRes with
        | .error e => [SvcCall.logError e]
        | .ok _ => []
      let updLog := match updRes with
        | .error e => [SvcCall.logError e]
        | .ok _ => []
      SvcCall.callbackSend url ev ::
        (cbLog ++
          SvcCall.updateEventStatusOfTransactionEvent ev.message_hash
            ev.account_workchain_id ev.account_hex st :: updLog)

/-- `TonServiceImpl::create_send_transaction` (`src/services/ton.rs:160-206`):
prepare the payload, persist the send transaction, attempt the ledger
broadcast — on broadcast failure persist the error through
`update_send_transaction` (propagating a failure of that write) — then run
the webhook block on the current event, and return the transaction. -/
def create_send_transaction (env : SendEnv) :
    Except String TransactionDb × List SvcCall :=
  match env.prepareResult with
  | .error e => (.error e, [])
  | .ok _ =>
    match env.createResult with
    | .error e => (.error e, [])
    | .ok te =>
      match env.sendResult with
      | .error err =>
        let updCall := SvcCall.updateSendTransaction te.1.message_hash
          te.1.account_workchain_id te.1.account_hex (UpdateSendTransaction.error err)
        match env.updateSendResult with
        | .error e2 => (.error e2, [SvcCall.sendTransaction, updCall])
        | .ok te1 =>
          (.ok te1.1,
            SvcCall.sendTransaction :: updCall ::
              notifyBlock env.getCallbackResult env.callbackResult
                env.updateEventResult te1.2)
      | .ok _ =>
        (.ok te.1,
          SvcCall.sendTransaction ::
            notifyBlock env.getCallbackResult env.callbackResult
              env.updateEventResult te.2)

/-- Oracle outcomes for the collaborator calls made by
`create_receive_transaction` (`src/services/ton.rs:208-245`). -/
structure ReceiveEnv where
  getAddressResult : Except String AddressDb
  createResult : Except String (TransactionDb × TransactionEventDb)
  getCallbackResult : Except String String
  callbackResult : Except String Unit
  updateEventResult : Except String Unit

/-- `TonServiceImpl::create_receive_transaction` (`src/services/ton.rs:208-245`):
resolve the owning address, persist the receive transaction, run the
webhook block on the created event, and return the transaction. -/
def create_receive_transaction (env : ReceiveEnv) :
    Except String TransactionDb × List SvcCall :=
  match env.getAddressResult with
  | .error e => (.error e, [])
  | .ok _ =>
    match env.createResult with
    | .error e => (.error e, [])
    | .ok te =>
      (.ok te.1,
        notifyBlock env.getCallbackResult env.callbackResult
          env.updateEventResult te.2)

/-- Oracle outcomes for the collaborator calls made by
`create_send_token_transaction` (`src/services/ton.rs:345-395`). -/
structure SendTokenEnv where
  prepareResult : Except String Unit
  createResult : Except String (TokenTransactionFromDb × TokenTransactionEventDb)
  sendResult : Except String Unit
  updateSendResult : Except String (TokenTransactionFromDb × TokenTransactionEventDb)
  getCallbackResult : Except String String
  callbackResult : Except String Unit
  updateEventResult : Except String Unit

/-- The webhook block of `create_send_token_transaction`
(`ton.rs:372-392`): like `notifyBlock` but the status write goes through
`update_event_status_of_token_transaction_event`. -/
def notifyTokenBlock (cbUrl : Except String String) (cbRes : Except String Unit)
    (updRes : Except String Unit) (ev : TokenTransactionEventDb) : List SvcCall :=
  match cbUrl with
  | .error _ => []
  | .ok url =>
      let st := eventStatusOfCallback cbRes
      let cbLog := match cbRes with
        | .error e => [SvcCall.logError e]
        | .ok _ => []
      let updLog := match updRes with
        | .error e => [SvcCall.logError e]
        | .ok _ => []
      SvcCall.tokenCallbackSend url ev ::
        (cbLog ++
          SvcCall.updateEventStatusOfTokenTransactionEvent ev.message_hash
            ev.account_workchain_id ev.account_hex st :: updLog)

/-- `TonServiceImpl::create_send_token_transaction`
(`src/services/ton.rs:345-395`): prepare the token payload, persist it,
attempt the ledger broadcast — on broadcast failure persist the error
through `update_send_token_transaction` (keyed also by root address) —
then run the token webhook block on the current event, and return the
transaction. -/
def create_send_token_transaction (env : SendTokenEnv) :
    Except String TokenTransactionFromDb × List SvcCall :=
  match env.prepareResult with
  | .error e => (.error e, [])
  | .ok _ =>
    match env.createResult with
    | .error e => (.error e, [])
    | .ok te =>
      match env.sendResult with
      | .error err =>
        let updCall := SvcCall.updateSendTokenTransaction te.1.message_hash
          te.1.account_workchain_id te.1.account_hex te.1.root_address
          (UpdateSendTokenTransaction.error err)
        match env.updateSendResult with
        | .error e2 => (.error e2, [SvcCall.sendTokenTransaction, updCall])
        | .ok te1 =>
          (.ok te1.1,
            SvcCall.sendTokenTransaction :: updCall ::
              notifyTokenBlock env.getCallbackResult env.callbackResult
                env.updateEventResult te1.2)
      | .ok _ =>
        (.ok te.1,
          SvcCall.sendTokenTransaction ::
            notifyTokenBlock env.getCallbackResult env.callbackResult
              env.updateEventResult te.2)

/-- Oracle outcomes for the collaborator calls made by
`create_receive_token_transaction` (`src/services/ton.rs:397-438`). -/
structure ReceiveTokenEnv where
  getTokenBalanceResult : Except String TokenBalanceFromDb
  createResult : Except String (TokenTransactionFromDb × TokenTransactionEventDb)
  getCallbackResult : Except String String
  callbackResult : Except String Unit
  updateEventResult : Except String Unit

/-- The webhook block of `create_receive_token_transaction`
(`ton.rs:415-435`).  Note: the source writes the status through
`update_event_status_of_transaction_event` — the non-token update —
keyed by the token event's message hash / workchain / hex
(`ton.rs:423-431`), unlike the send-token flow which uses
`update_event_status_of_token_transaction_event`. -/
def notifyReceiveTokenBlock (cbUrl : Except String String)
    (cbRes : Except String Unit) (updRes : Except String Unit)
    (ev : TokenTransactionEventDb) : List SvcCall :=
  match cbUrl with
  | .error _ => []
  | .ok url =>
      let st := eventStatusOfCallback cbRes
      let cbLog := match cbRes with
        | .error e => [SvcCall.logError e]
        | .ok _ => []
      let updLog := match updRes with
        | .error e => [SvcCall.logError e]
        | .ok _ => []
      SvcCall.tokenCallbackSend url ev ::
        (cbLog ++
          SvcCall.updateEventStatusOfTransactionEvent ev.message_hash
            ev.account_workchain_id ev.account_hex st :: updLog)

/-- `TonServiceImpl::create_receive_token_transaction`
(`src/services/ton.rs:397-438`): resolve the owning token balance,
persist the receive token transaction, run its webhook block on the
created event, and return the transaction. -/
def create_receive_token_transaction (env : ReceiveTokenEnv) :
    Except String TokenTransactionFromDb × List SvcCall :=
  match env.getTokenBalanceResult with
  | .error e => (.error e, [])
  | .ok _ =>
    match env.createResult with
    | .error e => (.error e, [])
    | .ok te =>
      (.ok te.1,
        notifyReceiveTokenBlock env.getCallbackResult env.callbackResult
          env.updateEventResult te.2)

/-! ## Event marking (`mark_event` / `mark_token_event`)

The storage mutation itself lives in `SqlxClient`, outside `src/`; the
persistent store is modelled explicitly and the two `..._by_id` updates
are modelled from the spec. -/

/-- The persisted store: one list per table relevant to the claims. -/
structure Db where
  transactions : List TransactionDb
  transaction_events : List TransactionEventDb
  token_transactions : List TokenTransactionFromDb
  token_transaction_events : List TokenTransactionEventDb
deriving DecidableEq, Repr

/-- Modelled from the spec:
`SqlxClient::update_event_status_of_transaction_event_by_id` (not under
`src/`) — sets the event status of the event with the given service id
and id, touching nothing else, and returns the updated event row. -/
def update_event_status_of_transaction_event_by_id (db : Db)
    (sid : ServiceId) (id : Uuid) (st : TonEventStatus) :
    Except String (TransactionEventDb × Db) :=
  match db.transaction_events.find? (fun ev => ev.service_id == sid && ev.id == id) with
  | none => .error "transaction event not found"
  | some ev =>
      .ok ({ ev with event_status := st },
        { db with
          transaction_events := db.transaction_events.map (fun e =>
            if e.service_id == sid && e.id == id then { e with event_status := st }
            else e) })

/-- Modelled from the spec:
`SqlxClient::update_event_status_of_token_transaction_event_by_id` (not
under `src/`) — the token-table analogue. -/
def update_event_status_of_token_transaction_event_by_id (db : Db)
    (sid : ServiceId) (id : Uuid) (st : TonEventStatus) :
    Except String (TokenTransactionEventDb × Db) :=
  match db.token_transaction_events.find? (fun ev => ev.service_id == sid && ev.id == id) with
  | none => .error "token transaction event not found"
  | some ev =>
      .ok ({ ev with event_status := st },
        { db with
          token_transaction_events := db.token_transaction_events.map (fun e =>
            if e.service_id == sid && e.id == id then { e with event_status := st }
            else e) })

/-- `TonServiceImpl::mark_event` (`src/services/ton.rs:274-286`): update
the event's status to `Notified` by id. -/
def mark_event (db : Db) (sid : ServiceId) (id : Uuid) :
    Except String (TransactionEventDb × Db) :=
  update_event_status_of_transaction_event_by_id db sid id TonEventStatus.Notified

/-- `TonServiceImpl::mark_token_event` (`src/services/ton.rs:305-317`):
update the token event's status to `Notified` by id. -/
def mark_token_event (db : Db) (sid : ServiceId) (id : Uuid) :
    Except String (TokenTransactionEventDb × Db) :=
  update_event_status_of_token_transaction_event_by_id db sid id TonEventStatus.Notified

/-! ## Pending message queue and `send_ton_message`
(`src/ton_core/mod.rs`) -/

/-- Modelled from the spec: a pending send entry of the queue
(`{ account, message content hash, expiration deadline, completion
handle }`, spec §3); the queue implementation lives outside `src/`.
`UInt256` values are carried as naturals. -/
structure PendingEntry where
  account : Nat
  messageHash : Nat
  expireAt : Nat
deriving DecidableEq, Repr

/-- Modelled from the spec: the pending messages queue holds the set of
unresolved entries, at most one per (account, hash) pair. -/
structure PendingMessagesQueue where
  entries : List PendingEntry
deriving DecidableEq, Repr

inductive QueueError
  | DuplicateEntry
deriving DecidableEq, Repr

/-- Modelled from the spec: `add_message(account, content_hash,
expire_at)` registers a new entry and fails with `DuplicateEntry` if an
unresolved entry already exists for the same (account, hash) pair
(spec §4.1). -/
def PendingMessagesQueue.add_message (q : PendingMessagesQueue)
    (account messageHash expireAt : Nat) :
    Except QueueError PendingMessagesQueue :=
  if q.entries.any (fun en => en.account == account && en.messageHash == messageHash)
  then .error QueueError.DuplicateEntry
  else .ok ⟨⟨account, messageHash, expireAt⟩ :: q.entries⟩

/-- Modelled from the spec: resolving an entry removes it from the queue
(spec §3: entry removed upon resolution); resolving an absent pair is a
no-op (spec §4.1). -/
def PendingMessagesQueue.resolve (q : PendingMessagesQueue)
    (account messageHash : Nat) : PendingMessagesQueue :=
  ⟨q.entries.filter (fun en => !(en.account == account && en.messageHash == messageHash))⟩

/-- `ton_block::CommonMsgInfo` as matched by `send_ton_message`
(`src/ton_core/mod.rs:168-173`): only the external-inbound header carries
data the function uses (its destination, abstracted to an `Int`
prefix source). -/
inductive CommonMsgInfo
  | extInMsgInfo (dst : Int)
  | intMsgInfo
  | extOutMsgInfo
deriving DecidableEq, Repr

/-- The slice of `ton_block::Message` that `send_ton_message` reads: its
header. -/
structure TonMessage where
  header : CommonMsgInfo
deriving DecidableEq, Repr

/-- `TonCoreError` from `src/ton_core/mod.rs:244-250`. -/
inductive TonCoreError
  | externalTonMessageExpected
  | accountNotFound (account : String)
deriving DecidableEq, Repr

/-- The error type of the embedded `send_ton_message`: a `TonCoreError`,
a queue error, or any other collaborator failure carried as a string
(the Rust code erases all of these into `anyhow::Error`). -/
inductive CoreError
  | core (e : TonCoreError)
  | queue (e : QueueError)
  | other (s : String)
deriving DecidableEq, Repr

/-- Modelled from the spec: the terminal resolution of a pending send
entry — `Confirmed`, `Expired` or `Error` (spec §3); the enum itself
lives outside `src/`. -/
inductive MessageStatus
  | Confirmed
  | Expired
  | Error
deriving DecidableEq, Repr

/-- Observable collaborator calls of `TonCoreContext::send_ton_message`:
the broadcast to the ledger engine. -/
inductive CoreCall
  | broadcastExternalMessage
deriving DecidableEq, Repr

/-- Oracle outcomes for the fallible collaborator operations inside
`send_ton_message` (`src/ton_core/mod.rs:162-188`): computing the
destination account prefix, serializing the message cells, the cells'
representation hash, the engine broadcast, and awaiting the completion
handle. -/
structure SendTonEnv where
  prefixResult : Except String Int
  writeCellResult : Except String Unit
  serializeResult : Except String Unit
  reprHash : Nat
  broadcastResult : Except String Unit
  awaitResult : Except String MessageStatus

/-- `TonCoreContext::send_ton_message` (`src/ton_core/mod.rs:162-188`):
reject any non-external-inbound header with
`ExternalTonMessageExpected`; otherwise compute the destination prefix,
serialize the message, register it in the pending queue (propagating
`DuplicateEntry`), broadcast it, and await the completion handle.
Returns the result, the queue after the call, and the trace of ledger
broadcasts. -/
def send_ton_message (env : SendTonEnv) (q : PendingMessagesQueue)
    (account : Nat) (message : TonMessage) (expireAt : Nat) :
    Except CoreError MessageStatus × PendingMessagesQueue × List CoreCall :=
  match message.header with
  | CommonMsgInfo.extInMsgInfo _dst =>
    match env.prefixResult with
    | .error e => (.error (CoreError.other e), q, [])
    | .ok _to =>
      match env.writeCellResult with
      | .error e => (.error (CoreError.other e), q, [])
      | .ok _ =>
        match env.serializeResult with
        | .error e => (.error (CoreError.other e), q, [])
        | .ok _ =>
          match q.add_message account env.reprHash expireAt with
          | .error e => (.error (CoreError.queue e), q, [])
          | .ok q1 =>
            match env.broadcastResult with
            | .error e =>
                (.error (CoreError.other e), q1, [CoreCall.broadcastExternalMessage])
            | .ok _ =>
              match env.awaitResult with
              | .error e =>
                  (.error (CoreError.other e), q1, [CoreCall.broadcastExternalMessage])
              | .ok st => (.ok st, q1, [CoreCall.broadcastExternalMessage])
  | _ => (.error (CoreError.core TonCoreError.externalTonMessageExpected), q, [])

/-! ## Account observer (`src/ton_core/mod.rs:191-221`) -/

/-- The slice of `TxContext` that `handle_transaction` reads directly:
the account (hex string for logging) and an abstract raw-transaction
payload the extraction function consumes. -/
structure TxContext where
  account : String
  raw : Nat
deriving DecidableEq, Repr

/-- An unbounded mpsc channel: the events enqueued so far, and whether
the receiver has been dropped. -/
structure UnboundedChannel (T : Type) where
  closed : Bool
  sent : List T
deriving DecidableEq, Repr

/-- `tokio::sync::mpsc::UnboundedSender::send`: fails (returning the
value) when the receiver has been dropped, otherwise enqueues. -/
def UnboundedChannel.send {T : Type} (ch : UnboundedChannel T) (x : T) :
    Except T (UnboundedChannel T) :=
  if ch.closed then .error x else .ok ⟨ch.closed, ch.sent ++ [x]⟩

/-- `AccountObserver::<T>::handle_transaction`
(`src/ton_core/mod.rs:204-220`): extract an event with
`T::read_from_transaction`; if one was extracted, send it on the
observer's channel, discarding a send failure with `.ok()`; always
return `Ok(())`.  Besides the result and the channel, the list of send
invocations made on the channel is returned. -/
def AccountObserver.handle_transaction {T : Type}
    (read_from_transaction : TxContext → Option T)
    (ch : UnboundedChannel T) (ctx : TxContext) :
    Except String Unit × UnboundedChannel T × List T :=
  match read_from_transaction ctx with
  | some ev =>
      match ch.send ev with
      | .error _ => (.ok (), ch, [ev])
      | .ok ch1 => (.ok (), ch1, [ev])
  | none => (.ok (), ch, [])

/-! ## Trace classification helpers -/

/-- The event status carried by an event-status write (either table);
`none` for every other call. -/
def writtenStatus : SvcCall → Option TonEventStatus
  | SvcCall.updateEventStatusOfTransactionEvent _ _ _ st => some st
  | SvcCall.updateEventStatusOfTokenTransactionEvent _ _ _ st => some st
  | _ => none

/-- Recognizes a status write to the token transaction-event table. -/
def isTokenEventStatusWrite : SvcCall → Bool
  | SvcCall.updateEventStatusOfTokenTransactionEvent _ _ _ _ => true
  | _ => false

/-- Recognizes a webhook delivery attempt (either event shape). -/
def isCallbackAttempt : SvcCall → Bool
  | SvcCall.callbackSend _ _ => true
  | SvcCall.tokenCallbackSend _ _ => true
  | _ => false

/-- Recognizes a ledger broadcast attempt
(`send_transaction` / `send_token_transaction`). -/
def isLedgerSend : SvcCall → Bool
  | SvcCall.sendTransaction => true
  | SvcCall.sendTokenTransaction => true
  | _ => false

/-! ## Sample rows (used by the concrete evaluations below) -/

def sampleAddress : AddressDb :=
  { id := 11, service_id := 7, workchain_id := 0, hex := "acc1"
  , base64url := "b64", public_key := "pub", private_key := "priv"
  , account_type := 0, custodians := none, confirmations := none
  , custodians_public_keys := none, balance := 100, created_at := 0, updated_at := 0 }

def sampleTransaction : TransactionDb :=
  { id := 1, service_id := 7, message_hash := "mh1", transaction_hash := none
  , transaction_lt := none, transaction_timeout := none, transaction_scan_lt := none
  , transaction_timestamp := none, sender_workchain_id := none, sender_hex := none
  , account_workchain_id := 0, account_hex := "acc1", messages := none
  , messages_hash := none, data := none, original_value := none
  , original_outputs := none, value := some 10, fee := none, balance_change := none
  , direction := TonTransactionDirection.Outgoing, status := TonTransactionStatus.New
  , error := none, aborted := false, bounce := false, multisig_transaction_id := none
  , created_at := 0, updated_at := 0 }

def sampleEvent : TransactionEventDb :=
  { id := 2, service_id := 7, transaction_id := 1, message_hash := "mh1"
  , account_workchain_id := 0, account_hex := "acc1", sender_workchain_id := none
  , sender_hex := none, balance_change := none
  , transaction_direction := TonTransactionDirection.Outgoing
  , transaction_status := TonTransactionStatus.New
  , event_status := TonEventStatus.New, created_at := 0, updated_at := 0
  , multisig_transaction_id := none }

def sampleTokenBalance : TokenBalanceFromDb :=
  { service_id := 7, account_workchain_id := 0, account_hex := "acc1"
  , balance := 50, root_address := "root1", created_at := 0, updated_at := 0 }

def sampleTokenTransaction : TokenTransactionFromDb :=
  { id := 3, service_id := 7, transaction_hash := none, transaction_timestamp := none
  , message_hash := "tmh1", owner_message_hash := none, account_workchain_id := 0
  , account_hex := "acc1", value := 5, root_address := "root1", payload := none
  , error := none, block_hash := none, block_time := none
  , direction := TonTransactionDirection.Incoming
  , status := TonTokenTransactionStatus.New, in_message_hash := none
  , created_at := 0, updated_at := 0 }

def sampleTokenEvent : TokenTransactionEventDb :=
  { id := 4, service_id := 7, token_transaction_id := 3, message_hash := "tmh1"
  , account_workchain_id := 0, account_hex := "acc1", owner_message_hash := none
  , value := 5, root_address := "root1"
  , transaction_direction := TonTransactionDirection.Incoming
  , transaction_status := TonTokenTransactionStatus.New
  , event_status := TonEventStatus.New, created_at := 0, updated_at := 0 }

/-! ## Claims -/

/-- C1: for every send request, `create_send_transaction` (and
`create_send_token_transaction`) returns the persisted transaction
record successfully whenever preparation and persistence succeed — the
broadcast succeeded or its error was persisted — with the callback
lookup, callback delivery and event-status-update outcomes arbitrary: no
failure on the callback path makes the operation return an error. -/
theorem c1_create_send_returns_ok_regardless_of_callback
    (env : SendEnv) (envT : SendTokenEnv)
    (h1 : exceptOk env.prepareResult = true)
    (h2 : exceptOk env.createResult = true)
    (h3 : exceptOk env.sendResult = true ∨ exceptOk env.updateSendResult = true)
    (g1 : exceptOk envT.prepareResult = true)
    (g2 : exceptOk envT.createResult = true)
    (g3 : exceptOk envT.sendResult = true ∨ exceptOk envT.updateSendResult = true) :
    exceptOk (create_send_transaction env).1 = true ∧
    exceptOk (create_send_token_transaction envT).1 = true := by
  constructor
  · obtain ⟨p, c, s, u, gc, cb, ue⟩ := env
    cases p <;> cases c <;> cases s <;> cases u <;>
      simp_all [create_send_transaction, exceptOk]
  · obtain ⟨p, c, s, u, gc, cb, ue⟩ := envT
    cases p <;> cases c <;> cases s <;> cases u <;>
      simp_all [create_send_token_transaction, exceptOk]

def c1SendEnv : SendEnv :=
  { prepareResult := .ok (), createResult := .ok (sampleTransaction, sampleEvent)
  , sendResult := .ok (), updateSendResult := .error "update failed"
  , getCallbackResult := .error "no callback configured"
  , callbackResult := .error "http 500", updateEventResult := .error "db down" }

def c1SendTokenEnv : SendTokenEnv :=
  { prepareResult := .ok ()
  , createResult := .ok (sampleTokenTransaction, sampleTokenEvent)
  , sendResult := .ok (), updateSendResult := .error "update failed"
  , getCallbackResult := .ok "https://cb.example"
  , callbackResult := .error "timeout", updateEventResult := .error "db down" }

theorem c1_witness :
    exceptOk (create_send_transaction c1SendEnv).1 = true ∧
    exceptOk (create_send_token_transaction c1SendTokenEnv).1 = true :=
  c1_create_send_returns_ok_regardless_of_callback c1SendEnv c1SendTokenEnv
    (by decide) (by decide) (Or.inl (by decide))
    (by decide) (by decide) (Or.inl (by decide))

/-- C2: in `create_send_transaction`, `create_receive_transaction` and
`create_send_token_transaction`, when a callback URL is configured (and
the flow reaches the webhook block), exactly one event-status write is
performed and its value is `Notified` exactly when the callback attempt
succeeded and `Error` on any callback failure — so `Notified` is never
written without a successful callback attempt. -/
theorem c2_event_status_write_matches_callback_outcome
    (env : SendEnv) (envR : ReceiveEnv) (envT : SendTokenEnv)
    (u1 u2 u3 : String)
    (h1 : env.getCallbackResult = .ok u1)
    (h2 : exceptOk env.prepareResult = true)
    (h3 : exceptOk env.createResult = true)
    (h4 : exceptOk env.sendResult = true ∨ exceptOk env.updateSendResult = true)
    (r1 : envR.getCallbackResult = .ok u2)
    (r2 : exceptOk envR.getAddressResult = true)
    (r3 : exceptOk envR.createResult = true)
    (t1 : envT.getCallbackResult = .ok u3)
    (t2 : exceptOk envT.prepareResult = true)
    (t3 : exceptOk envT.createResult = true)
    (t4 : exceptOk envT.sendResult = true ∨ exceptOk envT.updateSendResult = true) :
    (create_send_transaction env).2.filterMap writtenStatus
        = [eventStatusOfCallback env.callbackResult] ∧
    (create_receive_transaction envR).2.filterMap writtenStatus
        = [eventStatusOfCallback envR.callbackResult] ∧
    (create_send_token_transaction envT).2.filterMap writtenStatus
        = [eventStatusOfCallback envT.callbackResult] ∧
    (∀ r : Except String Unit,
        eventStatusOfCallback r = TonEventStatus.Notified ↔ exceptOk r = true) := by
  refine ⟨?_, ?_, ?_, ?_⟩
  · obtain ⟨p, c, s, u, gc, cb, ue⟩ := env
    cases p <;> cases c <;> cases s <;> cases u <;> cases cb <;> cases ue <;>
      simp_all [create_send_transaction, notifyBlock, writtenStatus,
        eventStatusOfCallback, exceptOk]
  · obtain ⟨a, c, gc, cb, ue⟩ := envR
    cases a <;> cases c <;> cases cb <;> cases ue <;>
      simp_all [create_receive_transaction, notifyBlock, writtenStatus,
        eventStatusOfCallback, exceptOk]
  · obtain ⟨p, c, s, u, gc, cb, ue⟩ := envT
    cases p <;> cases c <;> cases s <;> cases u <;> cases cb <;> cases ue <;>
      simp_all [create_send_token_transaction, notifyTokenBlock, writtenStatus,
        eventStatusOfCallback, exceptOk]
  · intro r
    cases r <;> simp [eventStatusOfCallback, exceptOk]

def c2SendEnv : SendEnv :=
  { prepareResult := .ok (), createResult := .ok (sampleTransaction, sampleEvent)
  , sendResult := .ok (), updateSendResult := .error "unused"
  , getCallbackResult := .ok "https://cb.example/a"
  , callbackResult := .ok (), updateEventResult := .ok () }

def c2ReceiveEnv : ReceiveEnv :=
  { getAddressResult := .ok sampleAddress
  , createResult := .ok (sampleTransaction, sampleEvent)
  , getCallbackResult := .ok "https://cb.example/b"
  , callbackResult := .error "connection refused", updateEventResult := .ok () }

def c2SendTokenEnv : SendTokenEnv :=
  { prepareResult := .ok ()
  , createResult := .ok (sampleTokenTransaction, sampleTokenEvent)
  , sendResult := .ok (), updateSendResult := .error "unused"
  , getCallbackResult := .ok "https://cb.example/c"
  , callbackResult := .error "http 502", updateEventResult := .error "db down" }

theorem c2_witness :
    (create_send_transaction c2SendEnv).2.filterMap writtenStatus
        = [eventStatusOfCallback c2SendEnv.callbackResult] ∧
    (create_receive_transaction c2ReceiveEnv).2.filterMap writtenStatus
        = [eventStatusOfCallback c2ReceiveEnv.callbackResult] ∧
    (create_send_token_transaction c2SendTokenEnv).2.filterMap writtenStatus
        = [eventStatusOfCallback c2SendTokenEnv.callbackResult] ∧
    (∀ r : Except String Unit,
        eventStatusOfCallback r = TonEventStatus.Notified ↔ exceptOk r = true) :=
  c2_event_status_write_matches_callback_outcome c2SendEnv c2ReceiveEnv c2SendTokenEnv
    "https://cb.example/a" "https://cb.example/b" "https://cb.example/c"
    rfl rfl rfl (Or.inl rfl) rfl rfl rfl rfl rfl rfl (Or.inl rfl)

def c3ReceiveTokenEnv : ReceiveTokenEnv :=
  { getTokenBalanceResult := .ok sampleTokenBalance
  , createResult := .ok (sampleTokenTransaction, sampleTokenEvent)
  , getCallbackResult := .ok "https://cb.example/t"
  , callbackResult := .ok (), updateEventResult := .ok () }

/-- C3 (code evaluation at the failing input): on an inbound token
transfer with a callback configured and a successful delivery,
`create_receive_token_transaction` writes the event status through
`update_event_status_of_transaction_event` — the native
transaction-event table — keyed by the token event's message hash,
workchain id and account hex, and performs no
`update_event_status_of_token_transaction_event` write at all
(`src/services/ton.rs:423-431`). -/
theorem c3_receive_token_writes_to_transaction_event_table :
    (SvcCall.updateEventStatusOfTransactionEvent sampleTokenEvent.message_hash
        sampleTokenEvent.account_workchain_id sampleTokenEvent.account_hex
        TonEventStatus.Notified
      ∈ (create_receive_token_transaction c3ReceiveTokenEnv).2) ∧
    (create_receive_token_transaction c3ReceiveTokenEnv).2.filter
        isTokenEventStatusWrite = [] := by
  constructor
  · simp [create_receive_token_transaction, c3ReceiveTokenEnv,
      notifyReceiveTokenBlock, eventStatusOfCallback]
  · simp [create_receive_token_transaction, c3ReceiveTokenEnv,
      notifyReceiveTokenBlock, eventStatusOfCallback, isTokenEventStatusWrite]

def c4ReceiveEnv : ReceiveEnv :=
  { getAddressResult := .ok sampleAddress
  , createResult := .ok (sampleTransaction, sampleEvent)
  , getCallbackResult := .error "callback not found"
  , callbackResult := .ok (), updateEventResult := .ok () }

/-- C4 counterexample: a receive flow whose callback lookup fails — the
operation succeeds, performs no collaborator call at all after
persistence, and in particular never writes `Error` (or anything else)
as the event status, contradicting the claim that a failed lookup sets
`event_status = Error`. -/
theorem c4_counterexample_lookup_failure_writes_nothing :
    (create_receive_transaction c4ReceiveEnv).1 = .ok sampleTransaction ∧
    (create_receive_transaction c4ReceiveEnv).2 = [] ∧
    TonEventStatus.Error ∉
      (create_receive_transaction c4ReceiveEnv).2.filterMap writtenStatus := by
  refine ⟨rfl, rfl, ?_⟩
  simp [create_receive_transaction, c4ReceiveEnv, notifyBlock]

/-- C4 (amended): in every send and receive flow, when the callback
lookup for the owning tenant fails, the webhook block is skipped
entirely: no delivery attempt is made and no event-status write is
performed, so the record's event status keeps the value the persistence
step created it with — it is not set to `Error`. -/
theorem c4_amended_lookup_failure_means_no_write
    (env : SendEnv) (envR : ReceiveEnv) (envT : SendTokenEnv)
    (envRT : ReceiveTokenEnv) (s1 s2 s3 s4 : String)
    (h1 : env.getCallbackResult = .error s1)
    (h2 : envR.getCallbackResult = .error s2)
    (h3 : envT.getCallbackResult = .error s3)
    (h4 : envRT.getCallbackResult = .error s4) :
    ((create_send_transaction env).2.filterMap writtenStatus = [] ∧
      (create_send_transaction env).2.filter isCallbackAttempt = []) ∧
    ((create_receive_transaction envR).2.filterMap writtenStatus = [] ∧
      (create_receive_transaction envR).2.filter isCallbackAttempt = []) ∧
    ((create_send_token_transaction envT).2.filterMap writtenStatus = [] ∧
      (create_send_token_transaction envT).2.filter isCallbackAttempt = []) ∧
    ((create_receive_token_transaction envRT).2.filterMap writtenStatus = [] ∧
      (create_receive_token_transaction envRT).2.filter isCallbackAttempt = []) := by
  refine ⟨?_, ?_, ?_, ?_⟩
  · obtain ⟨p, c, s, u, gc, cb, ue⟩ := env
    cases p <;> cases c <;> cases s <;> cases u <;>
      simp_all [create_send_transaction, notifyBlock, writtenStatus, isCallbackAttempt]
  · obtain ⟨a, c, gc, cb, ue⟩ := envR
    cases a <;> cases c <;>
      simp_all [create_receive_transaction, notifyBlock, writtenStatus, isCallbackAttempt]
  · obtain ⟨p, c, s, u, gc, cb, ue⟩ := envT
    cases p <;> cases c <;> cases s <;> cases u <;>
      simp_all [create_send_token_transaction, notifyTokenBlock, writtenStatus,
        isCallbackAttempt]
  · obtain ⟨b, c, gc, cb, ue⟩ := envRT
    cases b <;> cases c <;>
      simp_all [create_receive_token_transaction, notifyReceiveTokenBlock,
        writtenStatus, isCallbackAttempt]

def c4SendEnv : SendEnv :=
  { prepareResult := .ok (), createResult := .ok (sampleTransaction, sampleEvent)
  , sendResult := .error "node unreachable"
  , updateSendResult := .ok (sampleTransaction, sampleEvent)
  , getCallbackResult := .error "callback not found"
  , callbackResult := .ok (), updateEventResult := .ok () }

def c4SendTokenEnv : SendTokenEnv :=
  { prepareResult := .ok ()
  , createResult := .ok (sampleTokenTransaction, sampleTokenEvent)
  , sendResult := .ok (), updateSendResult := .error "unused"
  , getCallbackResult := .error "callback not found"
  , callbackResult := .ok (), updateEventResult := .ok () }

def c4ReceiveTokenEnv : ReceiveTokenEnv :=
  { getTokenBalanceResult := .ok sampleTokenBalance
  , createResult := .ok (sampleTokenTransaction, sampleTokenEvent)
  , getCallbackResult := .error "callback not found"
  , callbackResult := .ok (), updateEventResult := .ok () }

theorem c4_witness :
    ((create_send_transaction c4SendEnv).2.filterMap writtenStatus = [] ∧
      (create_send_transaction c4SendEnv).2.filter isCallbackAttempt = []) ∧
    ((create_receive_transaction c4ReceiveEnv).2.filterMap writtenStatus = [] ∧
      (create_receive_transaction c4ReceiveEnv).2.filter isCallbackAttempt = []) ∧
    ((create_send_token_transaction c4SendTokenEnv).2.filterMap writtenStatus = [] ∧
      (create_send_token_transaction c4SendTokenEnv).2.filter isCallbackAttempt = []) ∧
    ((create_receive_token_transaction c4ReceiveTokenEnv).2.filterMap writtenStatus = [] ∧
      (create_receive_token_transaction c4ReceiveTokenEnv).2.filter
        isCallbackAttempt = []) :=
  c4_amended_lookup_failure_means_no_write c4SendEnv c4ReceiveEnv c4SendTokenEnv
    c4ReceiveTokenEnv "callback not found" "callback not found" "callback not found"
    "callback not found" rfl rfl rfl rfl

/-- C5: when the owning service of a receive event has no configured
webhook (the callback lookup fails), `create_receive_transaction`
persists the record and returns it, and performs no collaborator call
after persistence — no delivery attempt and no event-status write — so
the event keeps the `New` status the persistence step created it with. -/
theorem c5_receive_no_webhook_keeps_new
    (env : ReceiveEnv) (addr : AddressDb) (t : TransactionDb)
    (e : TransactionEventDb) (s : String)
    (ha : env.getAddressResult = .ok addr)
    (hc : env.createResult = .ok (t, e))
    (hcb : env.getCallbackResult = .error s) :
    create_receive_transaction env = (.ok t, []) := by
  obtain ⟨a, c, gc, cb, ue⟩ := env
  simp_all [create_receive_transaction, notifyBlock]

def c5ReceiveEnv : ReceiveEnv :=
  { getAddressResult := .ok sampleAddress
  , createResult := .ok (sampleTransaction, sampleEvent)
  , getCallbackResult := .error "no webhook configured"
  , callbackResult := .ok (), updateEventResult := .ok () }

theorem c5_witness :
    create_receive_transaction c5ReceiveEnv = (.ok sampleTransaction, []) ∧
    sampleEvent.event_status = TonEventStatus.New :=
  ⟨c5_receive_no_webhook_keeps_new c5ReceiveEnv sampleAddress sampleTransaction
      sampleEvent "no webhook configured" rfl rfl rfl, rfl⟩

/-- C6: when the ledger broadcast fails immediately in
`create_send_transaction` (and `create_send_token_transaction`), the
persisted record's status is updated with the send error through
`update_send_transaction` (resp. the token variant), exactly one
broadcast attempt is made (no retry), the updated event — not the
originally created one — is the one passed to the webhook delivery step
when a callback is configured, and the updated record is returned. -/
theorem c6_send_failure_recorded_no_retry_event_still_delivered
    (env : SendEnv) (envT : SendTokenEnv) (err errT : String)
    (t0 t1 : TransactionDb) (e0 e1 : TransactionEventDb)
    (tt0 tt1 : TokenTransactionFromDb) (te0 te1 : TokenTransactionEventDb)
    (hp : exceptOk env.prepareResult = true)
    (hc : env.createResult = .ok (t0, e0))
    (hs : env.sendResult = .error err)
    (hu : env.updateSendResult = .ok (t1, e1))
    (gp : exceptOk envT.prepareResult = true)
    (gc : envT.createResult = .ok (tt0, te0))
    (gs : envT.sendResult = .error errT)
    (gu : envT.updateSendResult = .ok (tt1, te1)) :
    (SvcCall.updateSendTransaction t0.message_hash t0.account_workchain_id
        t0.account_hex (UpdateSendTransaction.error err)
      ∈ (create_send_transaction env).2) ∧
    (create_send_transaction env).2.countP isLedgerSend = 1 ∧
    (∀ url, env.getCallbackResult = .ok url →
        SvcCall.callbackSend url e1 ∈ (create_send_transaction env).2) ∧
    (create_send_transaction env).1 = .ok t1 ∧
    (SvcCall.updateSendTokenTransaction tt0.message_hash tt0.account_workchain_id
        tt0.account_hex tt0.root_address (UpdateSendTokenTransaction.error errT)
      ∈ (create_send_token_transaction envT).2) ∧
    (create_send_token_transaction envT).2.countP isLedgerSend = 1 ∧
    (∀ url, envT.getCallbackResult = .ok url →
        SvcCall.tokenCallbackSend url te1 ∈ (create_send_token_transaction envT).2) ∧
    (create_send_token_transaction envT).1 = .ok tt1 := by
  obtain ⟨pv, hp2⟩ := exceptOk_eq_true hp
  obtain ⟨pv2, gp2⟩ := exceptOk_eq_true gp
  refine ⟨?_, ?_, ?_, ?_, ?_, ?_, ?_, ?_⟩
  · simp [create_send_transaction, hp2, hc, hs, hu]
  · simp only [create_send_transaction, hp2, hc, hs, hu]
    cases hgc : env.getCallbackResult <;> cases hcb : env.callbackResult <;>
      cases hue : env.updateEventResult <;>
      simp [notifyBlock, eventStatusOfCallback, isLedgerSend,
        List.countP_cons, List.countP_append]
  · intro url hurl
    simp only [create_send_transaction, hp2, hc, hs, hu, hurl]
    cases hcb : env.callbackResult <;> cases hue : env.updateEventResult <;>
      simp [notifyBlock, eventStatusOfCallback]
  · simp [create_send_transaction, hp2, hc, hs, hu]
  · simp [create_send_token_transaction, gp2, gc, gs, gu]
  · simp only [create_send_token_transaction, gp2, gc, gs, gu]
    cases hgc : envT.getCallbackResult <;> cases hcb : envT.callbackResult <;>
      cases hue : envT.updateEventResult <;>
      simp [notifyTokenBlock, eventStatusOfCallback, isLedgerSend,
        List.countP_cons, List.countP_append]
  · intro url hurl
    simp only [create_send_token_transaction, gp2, gc, gs, gu, hurl]
    cases hcb : envT.callbackResult <;> cases hue : envT.updateEventResult <;>
      simp [notifyTokenBlock, eventStatusOfCallback]
  · simp [create_send_token_transaction, gp2, gc, gs, gu]

def sampleFailedTransaction : TransactionDb :=
  { sampleTransaction with
    status := TonTransactionStatus.Error,
    error := some "node unreachable" }

def sampleFailedEvent : TransactionEventDb :=
  { sampleEvent with transaction_status := TonTransactionStatus.Error }

def sampleFailedTokenTransaction : TokenTransactionFromDb :=
  { sampleTokenTransaction with
    status := TonTokenTransactionStatus.Error,
    error := some "node unreachable" }

def sampleFailedTokenEvent : TokenTransactionEventDb :=
  { sampleTokenEvent with transaction_status := TonTokenTransactionStatus.Error }

def c6SendEnv : SendEnv :=
  { prepareResult := .ok (), createResult := .ok (sampleTransaction, sampleEvent)
  , sendResult := .error "node unreachable"
  , updateSendResult := .ok (sampleFailedTransaction, sampleFailedEvent)
  , getCallbackResult := .ok "https://cb.example/s"
  , callbackResult := .ok (), updateEventResult := .ok () }

def c6SendTokenEnv : SendTokenEnv :=
  { prepareResult := .ok ()
  , createResult := .ok (sampleTokenTransaction, sampleTokenEvent)
  , sendResult := .error "node unreachable"
  , updateSendResult := .ok (sampleFailedTokenTransaction, sampleFailedTokenEvent)
  , getCallbackResult := .ok "https://cb.example/st"
  , callbackResult := .ok (), updateEventResult := .ok () }

theorem c6_witness :
    (SvcCall.updateSendTransaction sampleTransaction.message_hash
        sampleTransaction.account_workchain_id sampleTransaction.account_hex
        (UpdateSendTransaction.error "node unreachable")
      ∈ (create_send_transaction c6SendEnv).2) ∧
    (create_send_transaction c6SendEnv).2.countP isLedgerSend = 1 ∧
    (∀ url, c6SendEnv.getCallbackResult = .ok url →
        SvcCall.callbackSend url sampleFailedEvent
          ∈ (create_send_transaction c6SendEnv).2) ∧
    (create_send_transaction c6SendEnv).1 = .ok sampleFailedTransaction ∧
    (SvcCall.updateSendTokenTransaction sampleTokenTransaction.message_hash
        sampleTokenTransaction.account_workchain_id sampleTokenTransaction.account_hex
        sampleTokenTransaction.root_address
        (UpdateSendTokenTransaction.error "node unreachable")
      ∈ (create_send_token_transaction c6SendTokenEnv).2) ∧
    (create_send_token_transaction c6SendTokenEnv).2.countP isLedgerSend = 1 ∧
    (∀ url, c6SendTokenEnv.getCallbackResult = .ok url →
        SvcCall.tokenCallbackSend url sampleFailedTokenEvent
          ∈ (create_send_token_transaction c6SendTokenEnv).2) ∧
    (create_send_token_transaction c6SendTokenEnv).1 = .ok sampleFailedTokenTransaction :=
  c6_send_failure_recorded_no_retry_event_still_delivered c6SendEnv c6SendTokenEnv
    "node unreachable" "node unreachable"
    sampleTransaction sampleFailedTransaction sampleEvent sampleFailedEvent
    sampleTokenTransaction sampleFailedTokenTransaction sampleTokenEvent
    sampleFailedTokenEvent
    rfl rfl rfl rfl rfl rfl rfl rfl

/-- C7: when `mark_event` (resp. `mark_token_event`) succeeds, the
returned event record is the stored event with that service id and id
with only its `event_status` changed, to `Notified`; the transaction
tables (and so each transaction's ledger-confirmation status) and the
other event tables are untouched, and every other event row survives
unchanged. -/
theorem c7_mark_event_sets_notified_and_nothing_else
    (db db2 : Db) (sid sid2 : ServiceId) (id id2 : Uuid)
    (ev1 : TransactionEventDb) (db1 : Db)
    (tev1 : TokenTransactionEventDb) (db3 : Db)
    (h : mark_event db sid id = .ok (ev1, db1))
    (h2 : mark_token_event db2 sid2 id2 = .ok (tev1, db3)) :
    (ev1.event_status = TonEventStatus.Notified ∧
      (∃ ev ∈ db.transaction_events, ev.service_id = sid ∧ ev.id = id ∧
        ev1 = { ev with event_status := TonEventStatus.Notified }) ∧
      db1.transactions = db.transactions ∧
      db1.token_transactions = db.token_transactions ∧
      db1.token_transaction_events = db.token_transaction_events ∧
      (∀ e ∈ db.transaction_events, ¬(e.service_id = sid ∧ e.id = id) →
          e ∈ db1.transaction_events)) ∧
    (tev1.event_status = TonEventStatus.Notified ∧
      (∃ ev ∈ db2.token_transaction_events, ev.service_id = sid2 ∧ ev.id = id2 ∧
        tev1 = { ev with event_status := TonEventStatus.Notified }) ∧
      db3.transactions = db2.transactions ∧
      db3.token_transactions = db2.token_transactions ∧
      db3.transaction_events = db2.transaction_events ∧
      (∀ e ∈ db2.token_transaction_events, ¬(e.service_id = sid2 ∧ e.id = id2) →
          e ∈ db3.token_transaction_events)) := by
  constructor
  · unfold mark_event update_event_status_of_transaction_event_by_id at h
    split at h
    · simp at h
    · rename_i ev hfind
      have hmem := List.mem_of_find?_eq_some hfind
      have hpred := List.find?_some hfind
      simp only [Bool.and_eq_true, beq_iff_eq] at hpred
      obtain ⟨hsid, hid⟩ := hpred
      simp only [Except.ok.injEq, Prod.mk.injEq] at h
      obtain ⟨hev, hdb⟩ := h
      subst hev
      subst hdb
      refine ⟨rfl, ⟨ev, hmem, hsid, hid, rfl⟩, rfl, rfl, rfl, ?_⟩
      intro e he hne
      have hcond : (e.service_id == sid && e.id == id) = false := by
        rcases Bool.eq_false_or_eq_true (e.service_id == sid && e.id == id) with hT | hF
        · exact absurd (by simpa [Bool.and_eq_true, beq_iff_eq] using hT) hne
        · exact hF
      exact List.mem_map.mpr ⟨e, he, by simp [hcond]⟩
  · unfold mark_token_event update_event_status_of_token_transaction_event_by_id at h2
    split at h2
    · simp at h2
    · rename_i ev hfind
      have hmem := List.mem_of_find?_eq_some hfind
      have hpred := List.find?_some hfind
      simp only [Bool.and_eq_true, beq_iff_eq] at hpred
      obtain ⟨hsid, hid⟩ := hpred
      simp only [Except.ok.injEq, Prod.mk.injEq] at h2
      obtain ⟨hev, hdb⟩ := h2
      subst hev
      subst hdb
      refine ⟨rfl, ⟨ev, hmem, hsid, hid, rfl⟩, rfl, rfl, rfl, ?_⟩
      intro e he hne
      have hcond : (e.service_id == sid2 && e.id == id2) = false := by
        rcases Bool.eq_false_or_eq_true (e.service_id == sid2 && e.id == id2) with hT | hF
        · exact absurd (by simpa [Bool.and_eq_true, beq_iff_eq] using hT) hne
        · exact hF
      exact List.mem_map.mpr ⟨e, he, by simp [hcond]⟩

def c7StoredEvent : TransactionEventDb :=
  { sampleEvent with event_status := TonEventStatus.Error }

def c7StoredTokenEvent : TokenTransactionEventDb :=
  { sampleTokenEvent with event_status := TonEventStatus.Error }

def c7Db : Db :=
  { transactions := [sampleTransaction]
  , transaction_events := [c7StoredEvent]
  , token_transactions := [sampleTokenTransaction]
  , token_transaction_events := [c7StoredTokenEvent] }

def c7UpdatedEvent : TransactionEventDb :=
  { c7StoredEvent with event_status := TonEventStatus.Notified }

def c7UpdatedDb : Db :=
  { c7Db with transaction_events := [c7UpdatedEvent] }

def c7UpdatedTokenEvent : TokenTransactionEventDb :=
  { c7StoredTokenEvent with event_status := TonEventStatus.Notified }

def c7UpdatedTokenDb : Db :=
  { c7Db with token_transaction_events := [c7UpdatedTokenEvent] }

theorem c7_witness :
    (c7UpdatedEvent.event_status = TonEventStatus.Notified ∧
      (∃ ev ∈ c7Db.transaction_events, ev.service_id = 7 ∧ ev.id = 2 ∧
        c7UpdatedEvent = { ev with event_status := TonEventStatus.Notified }) ∧
      c7UpdatedDb.transactions = c7Db.transactions ∧
      c7UpdatedDb.token_transactions = c7Db.token_transactions ∧
      c7UpdatedDb.token_transaction_events = c7Db.token_transaction_events ∧
      (∀ e ∈ c7Db.transaction_events, ¬(e.service_id = 7 ∧ e.id = 2) →
          e ∈ c7UpdatedDb.transaction_events)) ∧
    (c7UpdatedTokenEvent.event_status = TonEventStatus.Notified ∧
      (∃ ev ∈ c7Db.token_transaction_events, ev.service_id = 7 ∧ ev.id = 4 ∧
        c7UpdatedTokenEvent = { ev with event_status := TonEventStatus.Notified }) ∧
      c7UpdatedTokenDb.transactions = c7Db.transactions ∧
      c7UpdatedTokenDb.token_transactions = c7Db.token_transactions ∧
      c7UpdatedTokenDb.transaction_events = c7Db.transaction_events ∧
      (∀ e ∈ c7Db.token_transaction_events, ¬(e.service_id = 7 ∧ e.id = 4) →
          e ∈ c7UpdatedTokenDb.token_transaction_events)) :=
  c7_mark_event_sets_notified_and_nothing_else c7Db c7Db 7 7 2 4
    c7UpdatedEvent c7UpdatedDb c7UpdatedTokenEvent c7UpdatedTokenDb
    (by rfl) (by rfl)

/-- C8: while an unresolved pending entry exists for an (account,
content hash) pair, `add_message` for that pair fails with
`DuplicateEntry` — so `send_ton_message` for a message hashing to that
pair returns the error without broadcasting anything — and once the
entry is resolved, the same pair can be registered again successfully. -/
theorem c8_duplicate_pending_entry
    (q : PendingMessagesQueue) (en : PendingEntry) (a hsh t t2 t3 : Nat)
    (hmem : en ∈ q.entries) (ha : en.account = a) (hh : en.messageHash = hsh) :
    q.add_message a hsh t = .error QueueError.DuplicateEntry ∧
    (∀ env : SendTonEnv, ∀ dst : Int,
      env.reprHash = hsh →
      exceptOk env.prefixResult = true →
      exceptOk env.writeCellResult = true →
      exceptOk env.serializeResult = true →
      send_ton_message env q a ⟨CommonMsgInfo.extInMsgInfo dst⟩ t2
        = (.error (CoreError.queue QueueError.DuplicateEntry), q, [])) ∧
    exceptOk ((q.resolve a hsh).add_message a hsh t3) = true := by
  have hdup : q.entries.any
      (fun en => en.account == a && en.messageHash == hsh) = true :=
    List.any_eq_true.mpr ⟨en, hmem, by simp [ha, hh]⟩
  refine ⟨?_, ?_, ?_⟩
  · simp [PendingMessagesQueue.add_message, hdup]
  · intro env dst hr hp hw hs
    obtain ⟨pv, hp2⟩ := exceptOk_eq_true hp
    obtain ⟨wv, hw2⟩ := exceptOk_eq_true hw
    obtain ⟨sv, hs2⟩ := exceptOk_eq_true hs
    simp [send_ton_message, hp2, hw2, hs2, hr,
      PendingMessagesQueue.add_message, hdup]
  · have hres : ((q.resolve a hsh).entries.any
        (fun en => en.account == a && en.messageHash == hsh)) = false := by
      rw [Bool.eq_false_iff]
      intro hcon
      obtain ⟨en2, hmem2, hpred⟩ := List.any_eq_true.mp hcon
      have hflt := (List.mem_filter.mp hmem2).2
      simp_all
    simp [PendingMessagesQueue.add_message, hres, exceptOk]

def c8Queue : PendingMessagesQueue := ⟨[⟨5, 99, 1000⟩]⟩

theorem c8_witness :
    c8Queue.add_message 5 99 2000 = .error QueueError.DuplicateEntry ∧
    (∀ env : SendTonEnv, ∀ dst : Int,
      env.reprHash = 99 →
      exceptOk env.prefixResult = true →
      exceptOk env.writeCellResult = true →
      exceptOk env.serializeResult = true →
      send_ton_message env c8Queue 5 ⟨CommonMsgInfo.extInMsgInfo dst⟩ 2000
        = (.error (CoreError.queue QueueError.DuplicateEntry), c8Queue, [])) ∧
    exceptOk ((c8Queue.resolve 5 99).add_message 5 99 3000) = true :=
  c8_duplicate_pending_entry c8Queue ⟨5, 99, 1000⟩ 5 99 2000 2000 3000
    (by decide) rfl rfl

/-- C9: for every raw transaction delivered to an `AccountObserver`,
`handle_transaction` invokes a send on the observer's channel exactly
when `read_from_transaction` extracts an event — the forwarded list is
`(read ctx).toList` — and returns `Ok(())` in every case; the event is
enqueued when the receiver is live, and the channel is untouched when
the receiver has been dropped (the send error is discarded). -/
theorem c9_handle_transaction_forwards_iff_some
    {T : Type} (read_from_transaction : TxContext → Option T)
    (ch : UnboundedChannel T) (ctx : TxContext) :
    (AccountObserver.handle_transaction read_from_transaction ch ctx).1 = .ok () ∧
    (AccountObserver.handle_transaction read_from_transaction ch ctx).2.2
      = (read_from_transaction ctx).toList ∧
    (AccountObserver.handle_transaction read_from_transaction ch ctx).2.1
      = (if ch.closed then ch
         else { ch with sent := ch.sent ++ (read_from_transaction ctx).toList }) := by
  obtain ⟨cl, sent⟩ := ch
  cases hr : read_from_transaction ctx <;> cases cl <;>
    simp [AccountObserver.handle_transaction, UnboundedChannel.send, hr]

/-- C10: `send_ton_message` rejects every message whose header is not an
external-inbound header with `ExternalTonMessageExpected`, leaving the
pending message queue unchanged and broadcasting nothing. -/
theorem c10_non_external_message_rejected
    (env : SendTonEnv) (q : PendingMessagesQueue) (account : Nat)
    (message : TonMessage) (expireAt : Nat)
    (h : ∀ dst : Int, message.header ≠ CommonMsgInfo.extInMsgInfo dst) :
    send_ton_message env q account message expireAt
      = (.error (CoreError.core TonCoreError.externalTonMessageExpected), q, []) := by
  obtain ⟨hd⟩ := message
  cases hd with
  | extInMsgInfo dst => exact absurd rfl (h dst)
  | intMsgInfo => rfl
  | extOutMsgInfo => rfl

def c10Env : SendTonEnv :=
  { prefixResult := .ok 0, writeCellResult := .ok (), serializeResult := .ok ()
  , reprHash := 1, broadcastResult := .ok ()
  , awaitResult := .ok MessageStatus.Confirmed }

def c10Queue : PendingMessagesQueue := ⟨[]⟩

theorem c10_witness :
    send_ton_message c10Env c10Queue 5 ⟨CommonMsgInfo.intMsgInfo⟩ 100
      = (.error (CoreError.core TonCoreError.externalTonMessageExpected),
          c10Queue, []) :=
  c10_non_external_message_rejected c10Env c10Queue 5 ⟨CommonMsgInfo.intMsgInfo⟩ 100
    (fun _dst hcontra => CommonMsgInfo.noConfusion hcontra)

end EverWallet
